import Mathlib

/-!
Shallow embedding of `src/hedm/midas/io.py` (MIDAS/HEDM Grains.csv parser).

Conventions of the embedding:
* Python floats are modelled as exact rationals `ℚ`; binary64 rounding is not
  modelled (no claim depends on it — tolerances are at the 1e-8 scale).
* Python `None` / unset attributes are modelled with `Option`.
* Operations that can raise are modelled with `Option` / `Except`.
* `np.isclose(x, y)` with default tolerances is `|x - y| ≤ atol + rtol * |y|`
  (rtol = 1e-5, atol = 1e-8); applying it to `None` raises `TypeError`,
  modelled as `Except.error`.
* Python's short-circuiting `and` over such fallible boolean expressions is
  `pyAnd`.
-/

namespace Hedm

/-- `np.isclose` default relative tolerance, 1e-5. -/
def rtol : ℚ := 1 / 100000

/-- `np.isclose` default absolute tolerance, 1e-8. -/
def atol : ℚ := 1 / 100000000

/-- `np.isclose(x, y)` on two numbers (default tolerances, no NaN/inf). -/
def npIsclose (x y : ℚ) : Bool := |x - y| ≤ atol + rtol * |y|

/-- `np.isclose` applied to possibly-`None` operands: numeric operands
compare with `npIsclose`; a `None` operand raises `TypeError`
(`Except.error`). -/
def npIscloseOpt : Option ℚ → Option ℚ → Except Unit Bool
  | some x, some y => .ok (npIsclose x y)
  | _, _ => .error ()

/-- Python's short-circuiting `and` over fallible boolean expressions:
an exception propagates, a false left operand short-circuits, a true left
operand evaluates the right operand. -/
def pyAnd (x : Except Unit Bool) (y : Unit → Except Unit Bool) : Except Unit Bool :=
  match x with
  | .error e => .error e
  | .ok false => .ok false
  | .ok true => y ()

/-- `class LatticeParameters_` (io.py:13): six optional float attributes
`a_ … gamma_`; an attribute is absent until its setter runs. -/
structure LatticeParameters_ where
  a_ : Option ℚ := none
  b_ : Option ℚ := none
  c_ : Option ℚ := none
  alpha_ : Option ℚ := none
  beta_ : Option ℚ := none
  gamma_ : Option ℚ := none
deriving DecidableEq

/-- Property `a` (io.py:60): `getattr(self, "a_", None)`. -/
def LatticeParameters_.a (lp : LatticeParameters_) : Option ℚ := lp.a_

/-- Property `alpha` (io.py:84): `getattr(self, "alpha_", None)`. -/
def LatticeParameters_.alpha (lp : LatticeParameters_) : Option ℚ := lp.alpha_

/-- Property `b` (io.py:68): `getattr(self, "b_", self.a)` — the default is
read live from `a` at access time. -/
def LatticeParameters_.b (lp : LatticeParameters_) : Option ℚ :=
  match lp.b_ with
  | some v => some v
  | none => lp.a

/-- Property `c` (io.py:76): `getattr(self, "c_", self.a)`. -/
def LatticeParameters_.c (lp : LatticeParameters_) : Option ℚ :=
  match lp.c_ with
  | some v => some v
  | none => lp.a

/-- Property `beta` (io.py:92): `getattr(self, "beta_", self.alpha)`. -/
def LatticeParameters_.beta (lp : LatticeParameters_) : Option ℚ :=
  match lp.beta_ with
  | some v => some v
  | none => lp.alpha

/-- Property `gamma` (io.py:100): `getattr(self, "gamma_", self.alpha)`. -/
def LatticeParameters_.gamma (lp : LatticeParameters_) : Option ℚ :=
  match lp.gamma_ with
  | some v => some v
  | none => lp.alpha

/-- Setter for `a` (io.py:63): `self.a_ = float(value)` (value already
numeric here). -/
def LatticeParameters_.setA (lp : LatticeParameters_) (v : ℚ) : LatticeParameters_ :=
  { lp with a_ := some v }

/-- Setter for `b` (io.py:71). -/
def LatticeParameters_.setB (lp : LatticeParameters_) (v : ℚ) : LatticeParameters_ :=
  { lp with b_ := some v }

/-- Setter for `c` (io.py:79). -/
def LatticeParameters_.setC (lp : LatticeParameters_) (v : ℚ) : LatticeParameters_ :=
  { lp with c_ := some v }

/-- Setter for `alpha` (io.py:87). -/
def LatticeParameters_.setAlpha (lp : LatticeParameters_) (v : ℚ) : LatticeParameters_ :=
  { lp with alpha_ := some v }

/-- `LatticeParameters_(a=…, b=…, c=…, alpha=…, beta=…, gamma=…)`
(io.py:14-37) with all six keywords supplied, as done by
`Grain_.from_Series` and `Grains.parse`: every setter runs. -/
def mkLatticeParameters6 (a b c alpha beta gamma : ℚ) : LatticeParameters_ :=
  { a_ := some a, b_ := some b, c_ := some c,
    alpha_ := some alpha, beta_ := some beta, gamma_ := some gamma }

/-- `LatticeParameters_.__eq__` (io.py:43-57): a chain of `np.isclose`
calls on the six resolved properties, combined with Python `and`.
A property that resolves to `None` makes the reached `np.isclose` raise. -/
def LatticeParameters_.eq (l r : LatticeParameters_) : Except Unit Bool :=
  pyAnd (npIscloseOpt l.a r.a) fun _ =>
  pyAnd (npIscloseOpt l.b r.b) fun _ =>
  pyAnd (npIscloseOpt l.c r.c) fun _ =>
  pyAnd (npIscloseOpt l.alpha r.alpha) fun _ =>
  pyAnd (npIscloseOpt l.beta r.beta) fun _ =>
  npIscloseOpt l.gamma r.gamma

/-! ### Python string primitives (on `List Char`) -/

/-- Value of a list of decimal digit characters. -/
def digitsToNat (l : List Char) : Nat := l.foldl (fun a c => 10 * a + (c.toNat - 48)) 0

/-- Optional sign followed by a non-empty digit run: the common core of
Python `int(str)` and of a float exponent part. -/
def pyIntCore : List Char → Option Int
  | '-' :: ds => if ds ≠ [] ∧ ds.all Char.isDigit then some (-(digitsToNat ds : Int)) else none
  | '+' :: ds => if ds ≠ [] ∧ ds.all Char.isDigit then some ((digitsToNat ds : Int)) else none
  | ds => if ds ≠ [] ∧ ds.all Char.isDigit then some ((digitsToNat ds : Int)) else none

/-- Python `str.strip()`: remove leading and trailing whitespace. -/
def pyStrip (l : List Char) : List Char :=
  ((l.dropWhile Char.isWhitespace).reverse.dropWhile Char.isWhitespace).reverse

/-- Python `int(str)`: optional surrounding whitespace, optional sign,
digits; anything else raises `ValueError` (`none`). Underscore separators
are not modelled (unused by the format). -/
def pyInt (l : List Char) : Option Int := pyIntCore (pyStrip l)

/-- Python `float(str)`: optional whitespace and sign, digits with an
optional fractional part and an optional decimal exponent; the result is
the exact rational value (binary64 rounding not modelled; `inf`/`nan`
spellings not modelled — unused by the format). -/
def pyFloat (s : List Char) : Option ℚ :=
  let l := pyStrip s
  let sgn : ℚ := if l.head? = some '-' then -1 else 1
  let l := if l.head? = some '-' ∨ l.head? = some '+' then l.tail else l
  let ip := l.takeWhile Char.isDigit
  let rest1 := l.dropWhile Char.isDigit
  let fp := match rest1 with
    | '.' :: t => t.takeWhile Char.isDigit
    | _ => []
  let rest2 := match rest1 with
    | '.' :: t => t.dropWhile Char.isDigit
    | _ => rest1
  let e : Option Int := match rest2 with
    | [] => some 0
    | 'e' :: t => pyIntCore t
    | 'E' :: t => pyIntCore t
    | _ => none
  if ip = [] ∧ fp = [] then none
  else match e with
    | none => none
    | some ex =>
      some (sgn * ((digitsToNat ip : ℚ) + (digitsToNat fp : ℚ) / 10 ^ fp.length) * 10 ^ ex)

/-- Python `str.split()` with no argument: split on whitespace runs,
discarding empty pieces. -/
def pySplitWs (l : List Char) : List (List Char) :=
  (l.splitOnP Char.isWhitespace).filter (· ≠ [])

/-- Python `str.split(sep)` with a one-character separator: split at every
occurrence, keeping empty pieces. -/
def pySplitChar (sep : Char) (l : List Char) : List (List Char) :=
  l.splitOnP (· = sep)

/-- Python tuple unpacking `k, v = xs` of a 2-element list;
any other length raises `ValueError` (`none`). -/
def unpack2 : List (List Char) → Option (List Char × List Char)
  | [k, v] => some (k, v)
  | _ => none

/-- Python `int(x)` applied to a float: truncation toward zero. -/
def pyTruncToInt (q : ℚ) : Int := if 0 ≤ q then q.floor else -((-q).floor)

/-! ### Grain records -/

/-- A parsed table row (`pandas.Series`): maps a column name to its numeric
cell value; `none` models a missing column (lookup raises `KeyError`). -/
def Row := String → Option ℚ

/-- `.values.reshape((3, 3))` on a nine-column selection: numpy C order
(row-major) — entry (i, j) is element `3*i + j` of the column list. -/
def reshape3x3 (v : List ℚ) : Fin 3 → Fin 3 → ℚ := fun i j => v.getD (3 * i.val + j.val) 0

/-- `.values` on a three-column selection, as a 3-vector. -/
def vec3 (v : List ℚ) : Fin 3 → ℚ := fun i => v.getD i.val 0

/-- `class Grain_` (io.py:108), in its populated state: `__init__` sets
every attribute to `None` and `from_Series` then assigns all of them in one
pass; the claims concern populated records, so fields are stored resolved. -/
structure Grain_ where
  ID : ℚ
  orientation : Fin 3 → Fin 3 → ℚ
  location : Fin 3 → ℚ
  latticeParameters : LatticeParameters_
  diffPos : ℚ
  diffOme : ℚ
  diffAngle : ℚ
  radius : ℚ
  confidence : ℚ
  strainFab : Fin 3 → Fin 3 → ℚ
  strainKen : Fin 3 → Fin 3 → ℚ
  rmsErrorStrain : ℚ
  phaseNumber : Int

/-- `series[[n1, …, nk]].values`: the listed columns in order; a missing
label raises `KeyError` (`none`). -/
def getCols (s : Row) : List String → Option (List ℚ)
  | [] => some []
  | n :: ns =>
    match s n, getCols s ns with
    | some v, some vs => some (v :: vs)
    | _, _ => none

/-- `Grain_.from_Series` (io.py:148-179): look up every required column and
assign all fields; any missing column raises (`none`). The nine `O`/`eFab`/
`eKen` columns are reshaped row-major into 3×3 matrices; the lattice is
built with all six keywords; `PhaseNr` goes through `int(...)`. -/
def Grain_.from_Series (s : Row) : Option Grain_ :=
  match s "GrainID",
        getCols s ["O11", "O12", "O13", "O21", "O22", "O23", "O31", "O32", "O33"],
        getCols s ["X", "Y", "Z"],
        s "a", s "b", s "c", s "alpha", s "beta", s "gamma",
        s "DiffPos", s "DiffOme", s "DiffAngle", s "GrainRadius", s "Confidence",
        getCols s ["eFab11", "eFab12", "eFab13", "eFab21", "eFab22", "eFab23",
                   "eFab31", "eFab32", "eFab33"],
        getCols s ["eKen11", "eKen12", "eKen13", "eKen21", "eKen22", "eKen23",
                   "eKen31", "eKen32", "eKen33"],
        s "RMSErrorStrain", s "PhaseNr" with
  | some id, some o, some loc, some a, some b, some c, some al, some be, some ga,
    some dp, some dom, some dan, some rad, some conf, some ef, some ek, some rms, some pn =>
      some { ID := id, orientation := reshape3x3 o, location := vec3 loc,
             latticeParameters := mkLatticeParameters6 a b c al be ga,
             diffPos := dp, diffOme := dom, diffAngle := dan, radius := rad,
             confidence := conf, strainFab := reshape3x3 ef, strainKen := reshape3x3 ek,
             rmsErrorStrain := rms, phaseNumber := pyTruncToInt pn }
  | _, _, _, _, _, _, _, _, _, _, _, _, _, _, _, _, _, _ => none

/-- `np.allclose(M, N)` on 3×3 matrices: `npIsclose` elementwise. -/
def npAllclose3x3 (m n : Fin 3 → Fin 3 → ℚ) : Bool :=
  (List.finRange 3).all fun i => (List.finRange 3).all fun j => npIsclose (m i j) (n i j)

/-- `np.allclose(u, v)` on 3-vectors. -/
def npAllcloseVec3 (u v : Fin 3 → ℚ) : Bool :=
  (List.finRange 3).all fun i => npIsclose (u i) (v i)

/-- `Grain_.__eq__` (io.py:127-146): Python `and` chain over the compared
fields. The source compares ID, orientation, location, latticeParameters,
diffPos, diffOme, diffAngle, radius, strainFab, strainKen and phaseNumber;
it does not compare `confidence` or `rmsErrorStrain`. -/
def Grain_.beq (l r : Grain_) : Except Unit Bool :=
  pyAnd (.ok (decide (l.ID = r.ID))) fun _ =>
  pyAnd (.ok (npAllclose3x3 l.orientation r.orientation)) fun _ =>
  pyAnd (.ok (npAllcloseVec3 l.location r.location)) fun _ =>
  pyAnd (LatticeParameters_.eq l.latticeParameters r.latticeParameters) fun _ =>
  pyAnd (.ok (npIsclose l.diffPos r.diffPos)) fun _ =>
  pyAnd (.ok (npIsclose l.diffOme r.diffOme)) fun _ =>
  pyAnd (.ok (npIsclose l.diffAngle r.diffAngle)) fun _ =>
  pyAnd (.ok (npIsclose l.radius r.radius)) fun _ =>
  pyAnd (.ok (npAllclose3x3 l.strainFab r.strainFab)) fun _ =>
  pyAnd (.ok (npAllclose3x3 l.strainKen r.strainKen)) fun _ =>
  .ok (decide (l.phaseNumber = r.phaseNumber))

/-! ### Grains collection and the file parser -/

/-- `class Grains` (io.py:182-196): the mutable parse target. `__init__`
sets every header field to `None` and `grains` to `[]`. -/
structure Grains where
  numGrains_ : Option Int := none
  beamCenter_ : Option ℚ := none
  beamThickness_ : Option ℚ := none
  globalPosition_ : Option ℚ := none
  numPhases_ : Option Int := none
  spaceGroup_ : Option Int := none
  latticeParameters_ : Option LatticeParameters_ := none
  grains : List Grain_ := []

/-- A freshly constructed `Grains()` (io.py:188-196). -/
def Grains.init : Grains := {}

/-- Property `NumGrains` (io.py:199). -/
def Grains.NumGrains (g : Grains) : Option Int := g.numGrains_

/-- Property `BeamCenter` (io.py:203). -/
def Grains.BeamCenter (g : Grains) : Option ℚ := g.beamCenter_

/-- Property `BeamThickness` (io.py:207). -/
def Grains.BeamThickness (g : Grains) : Option ℚ := g.beamThickness_

/-- Property `GlobalPosition` (io.py:211). -/
def Grains.GlobalPosition (g : Grains) : Option ℚ := g.globalPosition_

/-- Property `NumPhases` (io.py:215). -/
def Grains.NumPhases (g : Grains) : Option Int := g.numPhases_

/-- Property `SpaceGroup` (io.py:219). -/
def Grains.SpaceGroup (g : Grains) : Option Int := g.spaceGroup_

/-- Property `LatticeParameters` (io.py:223). -/
def Grains.LatticeParameters (g : Grains) : Option LatticeParameters_ := g.latticeParameters_

/-- Exceptions raised by `Grains.parse`. `integrityError` carries the two
counts interpolated into the io.py:291 message
(`self.NumGrains`, which is an `Option` in the model, and the parsed row
count). -/
inductive ParseError
  | notFound
  | tableError
  | headerError
  | schemaError
  | integrityError (expected : Option Int) (actual : Nat)
deriving DecidableEq

/-- The io.py:291 message with both counts interpolated:
`"{} grains were expected, but only {} were read."`. -/
def integrityMsg (expected : Option Int) (actual : Nat) : String :=
  (match expected with | some n => toString n | none => "None") ++
  " grains were expected, but only " ++ toString actual ++ " were read."

/-- `pd.read_table(sio, skiprows=8, index_col=False)` (io.py:242) applied
to the lines after the 8-line header: blank lines are skipped
(`skip_blank_lines=True`), the first remaining line holds the tab-separated
column names (default `sep` is the tab character), every further line is
one data row. A data row with more fields than there are columns makes
pandas raise its tokenizing error (`none`); a row with fewer fields is
kept, its missing trailing cells padded with NaN. NaN has no
representative in `ℚ`, so reading a padded cell — like reading a
non-numeric cell (the object-dtype fallback) — is modelled as a missing
value; no claim reads such a cell, only columns absent from the name row,
whose lookup raises `KeyError` in source and model alike. -/
def readTable (tableLines : List (List Char)) : Option (List Row) :=
  match tableLines.filter (· ≠ []) with
  | [] => none
  | names :: dataLines =>
    let cols := pySplitChar '\t' names
    if dataLines.all (fun ln => (pySplitChar '\t' ln).length ≤ cols.length) then
      some (dataLines.map fun ln =>
        let cells := pySplitChar '\t' ln
        fun name => (cols.indexOf? name.toList).bind fun i => (cells.get? i).bind pyFloat)
    else none

/-- `header[i]` (an absent index raises `IndexError`) followed by the
unpacking `key, value = header[i].split(…)` (a piece count other than two
raises `ValueError`). -/
def headerKV (header : List (List Char)) (i : Nat)
    (splitter : List Char → List (List Char)) : Option (List Char × List Char) :=
  match header.get? i with
  | none => none
  | some line => unpack2 (splitter line)

/-- `Grains.parse` (io.py:226-294). The filesystem is a map from filename
to file content (`none` = no such file, io.py:235). The result pairs the
state of `self` after the call — its in-place mutations persist even when
the call raises — with the outcome: `.ok` holds the returned object,
`.error` the raised exception.

Quirks kept faithful to the source:
* the `IOError` constructed on every header key mismatch (io.py:247-248,
  252-253, 257-258, 262-263, 267-268, 277-278, 282-283) is **never
  raised** — the key pieces are discarded and parsing continues;
* `pd.read_table` runs (io.py:242) before any header field is assigned;
* header line 6 (`PhaseInfo`) is skipped entirely (commented out,
  io.py:270-274). -/
def Grains.parse (self : Grains) (fs : String → Option String) (filename : String) :
    Grains × Except ParseError Grains :=
  match fs filename with
  | none => (self, .error .notFound)
  | some raw =>
    -- io.py:240: the full text with every literal '%' removed
    let content : List Char := raw.data.filter (· ≠ '%')
    let allLines := pySplitChar '\n' content
    match readTable (allLines.drop 8) with
    | none => (self, .error .tableError)
    | some rows =>
    -- io.py:244: the first 8 lines, each stripped
    let header := (allLines.take 8).map pyStrip
    -- io.py:246-249: NumGrains (key checked but the IOError is not raised)
    match headerKV header 0 pySplitWs with
    | none => (self, .error .headerError)
    | some (_, v0) =>
    match pyInt v0 with
    | none => (self, .error .headerError)
    | some n =>
    let s1 : Grains := { self with numGrains_ := some n }
    -- io.py:250-254: BeamCenter
    match headerKV header 1 pySplitWs with
    | none => (s1, .error .headerError)
    | some (_, v1) =>
    match pyFloat v1 with
    | none => (s1, .error .headerError)
    | some bc =>
    let s2 : Grains := { s1 with beamCenter_ := some bc }
    -- io.py:255-259: BeamThickness
    match headerKV header 2 pySplitWs with
    | none => (s2, .error .headerError)
    | some (_, v2) =>
    match pyFloat v2 with
    | none => (s2, .error .headerError)
    | some bt =>
    let s3 : Grains := { s2 with beamThickness_ := some bt }
    -- io.py:260-264: GlobalPosition
    match headerKV header 3 pySplitWs with
    | none => (s3, .error .headerError)
    | some (_, v3) =>
    match pyFloat v3 with
    | none => (s3, .error .headerError)
    | some gp =>
    let s4 : Grains := { s3 with globalPosition_ := some gp }
    -- io.py:265-269: NumPhases
    match headerKV header 4 pySplitWs with
    | none => (s4, .error .headerError)
    | some (_, v4) =>
    match pyInt v4 with
    | none => (s4, .error .headerError)
    | some np =>
    let s5 : Grains := { s4 with numPhases_ := some np }
    -- io.py:275-279: SpaceGroup, split on a colon
    match headerKV header 6 (pySplitChar ':') with
    | none => (s5, .error .headerError)
    | some (_, v6) =>
    match pyInt v6 with
    | none => (s5, .error .headerError)
    | some sg =>
    let s6 : Grains := { s5 with spaceGroup_ := some sg }
    -- io.py:280-286: Lattice Parameter, `value.strip().split(' ')` into six
    match headerKV header 7 (pySplitChar ':') with
    | none => (s6, .error .headerError)
    | some (_, v7) =>
    match pySplitChar ' ' (pyStrip v7) with
    | [la, lb, lc, lal, lbe, lga] =>
      match pyFloat la, pyFloat lb, pyFloat lc, pyFloat lal, pyFloat lbe, pyFloat lga with
      | some qa, some qb, some qc, some qal, some qbe, some qga =>
        let s7 : Grains :=
          { s6 with latticeParameters_ := some (mkLatticeParameters6 qa qb qc qal qbe qga) }
        -- io.py:288: populate the grain list
        match rows.mapM Grain_.from_Series with
        | none => (s7, .error .schemaError)
        | some gs =>
          let s8 : Grains := { s7 with grains := gs }
          -- io.py:290-293: integrity check against `self.NumGrains`
          if some ((gs.length : Int)) = s8.NumGrains then (s8, .ok s8)
          else (s8, .error (.integrityError s8.NumGrains gs.length))
      | _, _, _, _, _, _ => (s6, .error .headerError)
    | _ => (s6, .error .headerError)

/-! ### Concrete fixtures

Minimal `Grains.csv`-shaped inputs used as concrete instances. The table
block is the 44-column name row plus one data row, tab-separated, matching
the MIDAS column schema consumed by `Grain_.from_Series`. -/

/-- The 44 table column names, in file order. -/
def colNames : List String :=
  ["GrainID", "O11", "O12", "O13", "O21", "O22", "O23", "O31", "O32", "O33",
   "X", "Y", "Z", "a", "b", "c", "alpha", "beta", "gamma",
   "DiffPos", "DiffOme", "DiffAngle", "GrainRadius", "Confidence",
   "eFab11", "eFab12", "eFab13", "eFab21", "eFab22", "eFab23",
   "eFab31", "eFab32", "eFab33",
   "eKen11", "eKen12", "eKen13", "eKen21", "eKen22", "eKen23",
   "eKen31", "eKen32", "eKen33", "RMSErrorStrain", "PhaseNr"]

/-- A well-formed one-grain table block. -/
def tableGood : String :=
  String.intercalate "\t" colNames ++ "\n" ++
  String.intercalate "\t" (List.replicate 44 "1")

/-- Header lines 2–8, shared by the fixtures. -/
def headerTail : String :=
  "BeamCenter -20.407685\nBeamThickness 2000.0\nGlobalPosition 0.0\n" ++
  "NumPhases 1\nPhaseInfo\nSpaceGroup: 194\nLattice Parameter: 2.9226 2.9226 4.67005 90 90 120\n"

/-- A fixture whose line-1 key is misspelled (`NumGrain`), otherwise valid. -/
def fileBadKey : String := "NumGrain 1\n" ++ headerTail ++ tableGood

/-- A fixture with the misspelled line-1 key and a table whose two
columns (`A`, `B`) are none of the grain columns; its single short data
row is NaN-padded by pandas, so the table read succeeds and the parse only
fails in `from_Series` on the missing `GrainID` column. -/
def fileBadKeyBadTable : String := "NumGrain 1\n" ++ headerTail ++ "A\tB\n1"

/-- A fixture with the misspelled line-1 key and a data row carrying more
fields than the table has columns: `pd.read_table` raises its tokenizing
error on the oversized row. -/
def fileExcessRow : String := "NumGrain 1\n" ++ headerTail ++ "A\tB\n1\t2\t3"

/-- A fixture declaring `NumGrains 2` but holding a single grain row. -/
def fileBadCount : String := "NumGrains 2\n" ++ headerTail ++ tableGood

/-- A fully populated grain used as the C4 failing input (left side). -/
def grainA : Grain_ :=
  { ID := 1, orientation := fun _ _ => 0, location := fun _ => 0,
    latticeParameters := mkLatticeParameters6 1 1 1 90 90 90,
    diffPos := 0, diffOme := 0, diffAngle := 0, radius := 1, confidence := 1/2,
    strainFab := fun _ _ => 0, strainKen := fun _ _ => 0,
    rmsErrorStrain := 0, phaseNumber := 1 }

/-- The C4 failing input's right side: identical to `grainA` except for
`confidence` and `rmsErrorStrain`. -/
def grainB : Grain_ := { grainA with confidence := 9/10, rmsErrorStrain := 100 }

/-- `content.replace('%', '')` (io.py:240) as a `String` transformer. -/
def stripPct (s : String) : String := ⟨s.data.filter (· ≠ '%')⟩

/-- The orientation column name for matrix entry (i, j):
`O11 O12 O13 / O21 O22 O23 / O31 O32 O33`. -/
def oCol (i j : Fin 3) : String := "O" ++ toString (i.val + 1) ++ toString (j.val + 1)

/-- The Fab-frame strain column name for tensor entry (i, j). -/
def eFabCol (i j : Fin 3) : String := "eFab" ++ toString (i.val + 1) ++ toString (j.val + 1)

/-- The Ken-frame strain column name for tensor entry (i, j). -/
def eKenCol (i j : Fin 3) : String := "eKen" ++ toString (i.val + 1) ++ toString (j.val + 1)

/-- A table row as an association list, modelling a `pandas.Series` keyed
by column name. -/
def mkRow (l : List (String × ℚ)) : Row :=
  fun n => (l.find? (fun p => p.1 == n)).map Prod.snd

/-- The spec's pinned example row: `O11=1, O12=2, …, O33=9`, with distinct
values in the two strain-tensor column groups as well. -/
def rowC6 : Row := mkRow
  [("GrainID", 1),
   ("O11", 1), ("O12", 2), ("O13", 3), ("O21", 4), ("O22", 5), ("O23", 6),
   ("O31", 7), ("O32", 8), ("O33", 9),
   ("X", 10), ("Y", 11), ("Z", 12),
   ("a", 1), ("b", 1), ("c", 1), ("alpha", 90), ("beta", 90), ("gamma", 90),
   ("DiffPos", 0), ("DiffOme", 0), ("DiffAngle", 0), ("GrainRadius", 1),
   ("Confidence", 1),
   ("eFab11", 21), ("eFab12", 22), ("eFab13", 23), ("eFab21", 24), ("eFab22", 25),
   ("eFab23", 26), ("eFab31", 27), ("eFab32", 28), ("eFab33", 29),
   ("eKen11", 31), ("eKen12", 32), ("eKen13", 33), ("eKen21", 34), ("eKen22", 35),
   ("eKen23", 36), ("eKen31", 37), ("eKen32", 38), ("eKen33", 39),
   ("RMSErrorStrain", 0), ("PhaseNr", 1)]

/-- The grain `from_Series` produces from `rowC6`. -/
def gC6 : Grain_ :=
  { ID := 1,
    orientation := reshape3x3 [1, 2, 3, 4, 5, 6, 7, 8, 9],
    location := vec3 [10, 11, 12],
    latticeParameters := mkLatticeParameters6 1 1 1 90 90 90,
    diffPos := 0, diffOme := 0, diffAngle := 0, radius := 1, confidence := 1,
    strainFab := reshape3x3 [21, 22, 23, 24, 25, 26, 27, 28, 29],
    strainKen := reshape3x3 [31, 32, 33, 34, 35, 36, 37, 38, 39],
    rmsErrorStrain := 0, phaseNumber := pyTruncToInt 1 }

/-! ### Helper lemmas -/

/-- `np.isclose` is reflexive: the tolerance bound is nonnegative. -/
theorem npIsclose_self (x : ℚ) : npIsclose x x = true := by
  simp only [npIsclose, atol, rtol, sub_self, abs_zero, decide_eq_true_eq]
  positivity

/-- A successful multi-column selection returns each listed column's value
at its position: element k of the result is the value of the k-th name. -/
theorem getCols_some {s : Row} {names : List String} {vs : List ℚ}
    (h : getCols s names = some vs) :
    ∀ k : Nat, k < names.length → s (names.getD k "") = some (vs.getD k 0) := by
  induction names generalizing vs with
  | nil => intro k hk; simp at hk
  | cons n ns ih =>
    intro k hk
    rw [getCols] at h
    split at h
    · rename_i v vs2 hv hvs
      simp only [Option.some.injEq] at h
      subst h
      cases k with
      | zero => simpa using hv
      | succ k => simpa using ih hvs k (Nat.lt_of_succ_lt_succ hk)
    · exact absurd h (by simp)

/-! ### Claims -/

set_option maxRecDepth 100000 in
/-- **C1** (code bug). The spec requires `Grains.parse` to raise a
`FormatError` on a corrupted header key before any table parsing; the
source only *constructs* `IOError(...)` on key mismatch (io.py:247-248)
and never raises it, and `pd.read_table` (io.py:242) runs before the
header checks. At `fileBadKey` (line 1 reads `NumGrain 1`): the key token
differs from the expected literal, yet the parse returns successfully and
even assigns `numGrains_` from the malformed line. At `fileExcessRow` the
oversized data row makes `pd.read_table` raise with the instance still
untouched, so table parsing precedes all header validation. At
`fileBadKeyBadTable` the short data row is NaN-padded, the parse proceeds
past the table read, assigns the header fields, and fails only in
`from_Series` on the missing `GrainID` column — no `FormatError` at any
point. -/
theorem c1_header_key_mismatch_not_raised :
    ((pySplitChar '\n' (fileBadKey.data.filter (· ≠ '%'))).map pyStrip).getD 0 []
        = "NumGrain 1".toList ∧
    (pySplitWs "NumGrain 1".toList).getD 0 [] ≠ "NumGrains".toList ∧
    (Grains.parse Grains.init (fun _ => some fileBadKey) "Grains.csv").2.isOk = true ∧
    (Grains.parse Grains.init (fun _ => some fileBadKey) "Grains.csv").1.numGrains_ = some 1 ∧
    Grains.parse Grains.init (fun _ => some fileExcessRow) "Grains.csv"
        = (Grains.init, .error .tableError) ∧
    (Grains.parse Grains.init (fun _ => some fileBadKeyBadTable) "Grains.csv").2
        = .error .schemaError ∧
    (Grains.parse Grains.init (fun _ => some fileBadKeyBadTable) "Grains.csv").1.numGrains_
        = some 1 ∧
    (Grains.parse Grains.init
        (fun _ => some fileBadKeyBadTable) "Grains.csv").1.latticeParameters_.isSome = true :=
  ⟨rfl, by decide, rfl, rfl, rfl, rfl, rfl, rfl⟩

/-- **C5**. Reading `b` (resp. `c`) while `b_` (resp. `c_`) is unset
returns the *current* value of `a`, computed at read time: with `b` unset,
`lp.b` equals `lp.a`, and after the setter `setA v` runs — a change of `a`
after construction — a subsequent read of `b` (and `c`) returns the new
`v`; likewise `beta` and `gamma` track `alpha` live. -/
theorem c5_live_default_inheritance (lp : LatticeParameters_) (u v w : ℚ)
    (hb : lp.b_ = none) (hc : lp.c_ = none)
    (hbe : lp.beta_ = none) (hga : lp.gamma_ = none) :
    (lp.a_ = some u → lp.b = some u ∧ lp.c = some u) ∧
    ((lp.setA v).b = some v ∧ (lp.setA v).c = some v) ∧
    ((lp.setAlpha w).beta = some w ∧ (lp.setAlpha w).gamma = some w) := by
  refine ⟨fun ha => ⟨?_, ?_⟩, ⟨?_, ?_⟩, ⟨?_, ?_⟩⟩ <;>
    simp [LatticeParameters_.b, LatticeParameters_.c, LatticeParameters_.beta,
      LatticeParameters_.gamma, LatticeParameters_.a, LatticeParameters_.alpha,
      LatticeParameters_.setA, LatticeParameters_.setAlpha, hb, hc, hbe, hga, *]

/-- Witness for C5 at `a=1, alpha=90`, with `a` then reassigned to `2` and
`alpha` to `120`. -/
theorem c5_witness :
    ({ a_ := some 1, alpha_ := some 90 : LatticeParameters_ }.b_ = none) ∧
    LatticeParameters_.b { a_ := some 1, alpha_ := some 90 } = some 1 ∧
    (LatticeParameters_.setA { a_ := some 1, alpha_ := some 90 } 2).b = some 2 ∧
    (LatticeParameters_.setAlpha { a_ := some 1, alpha_ := some 90 } 120).gamma = some 120 := by
  have h := c5_live_default_inheritance
    { a_ := some 1, alpha_ := some 90 } 1 2 120 rfl rfl rfl rfl
  exact ⟨rfl, (h.1 rfl).1, h.2.1.1, h.2.2.2⟩

/-- **C8**. When the path names no existing file, `parse` raises the
not-found error (io.py:235-236) with the instance untouched: the returned
state is exactly the input state, before anything is read or parsed. -/
theorem c8_missing_file_not_found (self : Grains) (fs : String → Option String)
    (f : String) (h : fs f = none) :
    Grains.parse self fs f = (self, .error .notFound) := by
  unfold Grains.parse
  rw [h]

/-- Witness for C8 on an empty filesystem. -/
theorem c8_witness :
    Grains.parse Grains.init (fun _ => none) "Grains.csv"
      = (Grains.init, .error .notFound) :=
  c8_missing_file_not_found Grains.init (fun _ => none) "Grains.csv" rfl

/-- **C10**. With `a_` (resp. `alpha_`) never set, the accessor `a`
(resp. `alpha`) returns the `None` sentinel rather than raising, and the
unset-defaulting reads of `b`, `c` (resp. `beta`, `gamma`) then also
return `None`. -/
theorem c10_unset_accessors_return_none (lp : LatticeParameters_)
    (ha : lp.a_ = none) (hal : lp.alpha_ = none) :
    lp.a = none ∧ lp.alpha = none ∧
    (lp.b_ = none → lp.b = none) ∧ (lp.c_ = none → lp.c = none) ∧
    (lp.beta_ = none → lp.beta = none) ∧ (lp.gamma_ = none → lp.gamma = none) := by
  refine ⟨ha, hal, fun hb => ?_, fun hc => ?_, fun hbe => ?_, fun hga => ?_⟩ <;>
    simp [LatticeParameters_.b, LatticeParameters_.c, LatticeParameters_.beta,
      LatticeParameters_.gamma, LatticeParameters_.a, LatticeParameters_.alpha,
      ha, hal, *]

/-- Witness for C10 on a default-constructed `LatticeParameters_()`. -/
theorem c10_witness :
    ({} : LatticeParameters_).a = none ∧ ({} : LatticeParameters_).b = none ∧
    ({} : LatticeParameters_).c = none ∧ ({} : LatticeParameters_).alpha = none ∧
    ({} : LatticeParameters_).beta = none ∧ ({} : LatticeParameters_).gamma = none := by
  have h := c10_unset_accessors_return_none {} rfl rfl
  exact ⟨h.1, h.2.2.1 rfl, h.2.2.2.1 rfl, h.2.1, h.2.2.2.2.1 rfl, h.2.2.2.2.2 rfl⟩

/-- **C4** (code bug). The claim (and the method's own docstring,
io.py:129: equality "defined by all properties being equal") requires every
field listed in the data model to match, `confidence` and `rmsErrorStrain`
included; but `Grain_.__eq__` (io.py:136-146) never compares those two
fields, so two grains that differ only there still compare equal. -/
theorem c4_eq_ignores_confidence_and_rms :
    Grain_.beq grainA grainB = .ok true ∧
    grainA.confidence ≠ grainB.confidence ∧
    grainA.rmsErrorStrain ≠ grainB.rmsErrorStrain := by
  refine ⟨?_, by norm_num [grainA, grainB], by norm_num [grainA, grainB]⟩
  simp only [Grain_.beq, grainA, grainB, npAllclose3x3, npAllcloseVec3, npIsclose_self,
    LatticeParameters_.eq, npIscloseOpt, mkLatticeParameters6, LatticeParameters_.a,
    LatticeParameters_.b, LatticeParameters_.c, LatticeParameters_.alpha,
    LatticeParameters_.beta, LatticeParameters_.gamma]
  rfl

/-- **C9** counterexample. With `a` unset on both sides the claim says the
equality operator "fails by returning false"; in the source
`np.isclose(None, None)` raises `TypeError` instead (io.py:52 with the
io.py:60 accessor returning `None`), so `__eq__` raises and in particular
does not return `False`. -/
theorem c9_counterexample :
    LatticeParameters_.eq {} {} = .error () ∧
    LatticeParameters_.eq {} {} ≠ .ok false ∧
    ({} : LatticeParameters_).a = none :=
  ⟨rfl,
   fun h => Except.noConfusion
     ((rfl : LatticeParameters_.eq {} {} = Except.error ()).symm.trans h),
   rfl⟩

/-- **C9** (amended). `__eq__` compares the six resolved values pairwise
with `np.isclose` joined by short-circuiting `and`: when every field
resolves on both sides the result is the conjunction of the six tolerance
comparisons; when the first required field fails to resolve on either side
(`a` unset with `b`, `c` therefore also unresolved — reached immediately),
the comparison raises a `TypeError` rather than returning false. -/
theorem c9_eq_resolved_or_raises (l r : LatticeParameters_) :
    (∀ la lb lc lal lbe lga ra rb rc ral rbe rga : ℚ,
      l.a = some la → l.b = some lb → l.c = some lc → l.alpha = some lal →
      l.beta = some lbe → l.gamma = some lga →
      r.a = some ra → r.b = some rb → r.c = some rc → r.alpha = some ral →
      r.beta = some rbe → r.gamma = some rga →
      LatticeParameters_.eq l r =
        .ok (npIsclose la ra && (npIsclose lb rb && (npIsclose lc rc &&
             (npIsclose lal ral && (npIsclose lbe rbe && npIsclose lga rga)))))) ∧
    (l.a_ = none → r.a_ = none → LatticeParameters_.eq l r = .error ()) := by
  constructor
  · intro la lb lc lal lbe lga ra rb rc ral rbe rga h1 h2 h3 h4 h5 h6 h7 h8 h9 h10 h11 h12
    simp only [LatticeParameters_.eq, h1, h2, h3, h4, h5, h6, h7, h8, h9, h10, h11, h12,
      npIscloseOpt]
    generalize npIsclose la ra = b1
    generalize npIsclose lb rb = b2
    generalize npIsclose lc rc = b3
    generalize npIsclose lal ral = b4
    generalize npIsclose lbe rbe = b5
    generalize npIsclose lga rga = b6
    cases b1 <;> cases b2 <;> cases b3 <;> cases b4 <;> cases b5 <;> cases b6 <;> rfl
  · intro ha hra
    have hla : l.a = none := ha
    have hra2 : r.a = none := hra
    simp only [LatticeParameters_.eq, hla, hra2]
    rfl

/-- Witness for C9: a fully resolved pair yields the conjunction of the
six tolerance comparisons, and the all-unset pair raises. -/
theorem c9_witness :
    LatticeParameters_.eq (mkLatticeParameters6 1 1 1 90 90 120)
        (mkLatticeParameters6 1 1 1 90 90 120)
      = .ok (npIsclose 1 1 && (npIsclose 1 1 && (npIsclose 1 1 &&
             (npIsclose 90 90 && (npIsclose 90 90 && npIsclose 120 120))))) ∧
    LatticeParameters_.eq {} {} = .error () := by
  have h := c9_eq_resolved_or_raises (mkLatticeParameters6 1 1 1 90 90 120)
    (mkLatticeParameters6 1 1 1 90 90 120)
  have h2 := c9_eq_resolved_or_raises {} {}
  exact ⟨h.1 1 1 1 90 90 120 1 1 1 90 90 120 rfl rfl rfl rfl rfl rfl rfl rfl rfl rfl rfl rfl,
    h2.2 rfl rfl⟩

set_option maxHeartbeats 1600000 in
/-- **C2**. After a successful `parse` the grain count equals the declared
`NumGrains` from header line 1 (`g.numGrains_ = some |grains|`); and when
the counts differ, `parse` raises the integrity error (io.py:290-293)
whose message — `integrityMsg`, interpolating io.py:291 — carries exactly
the declared (expected) count and the parsed (actual) count, which indeed
disagree. -/
theorem c2_count_invariant_and_integrity_error (s : Grains)
    (fs : String → Option String) (f : String) :
    (∀ g, (Grains.parse s fs f).2 = .ok g → g.numGrains_ = some ((g.grains.length : Int))) ∧
    (∀ st exp act, Grains.parse s fs f = (st, .error (.integrityError exp act)) →
      exp = st.numGrains_ ∧ act = st.grains.length ∧ some ((act : Int)) ≠ exp) := by
  constructor
  · intro g h
    unfold Grains.parse at h
    repeat split at h <;> try simp at h
    subst h
    simp_all [Grains.NumGrains]
  · intro st exp act h
    unfold Grains.parse at h
    repeat split at h <;> try simp at h
    obtain ⟨h1, h2, h3⟩ := h
    subst h1 h2 h3
    exact ⟨rfl, rfl, fun hc => absurd hc (by assumption)⟩

set_option maxRecDepth 100000 in
/-- Witness for C2 at `fileBadCount` (declares 2 grains, holds 1): the
raised integrity error carries expected = declared `NumGrains` = 2 and
actual = parsed row count = 1. -/
theorem c2_witness :
    (Grains.parse Grains.init (fun _ => some fileBadCount) "Grains.csv").1.numGrains_
        = some 2 ∧
    (Grains.parse Grains.init (fun _ => some fileBadCount) "Grains.csv").1.grains.length
        = 1 ∧
    integrityMsg (some 2) 1 = "2 grains were expected, but only 1 were read." := by
  have h := (c2_count_invariant_and_integrity_error Grains.init
      (fun _ => some fileBadCount) "Grains.csv").2
    (Grains.parse Grains.init (fun _ => some fileBadCount) "Grains.csv").1
    (some 2) 1 (by rfl)
  exact ⟨h.1.symm, h.2.1.symm, rfl⟩

set_option maxRecDepth 100000 in
/-- **C3** counterexample. The claim says the caller never observes
half-parsed state after a failed parse; but at `fileBadCount` the parse
raises the integrity error while the instance retains the header fields
and the one parsed grain row (`parse` mutates `self` in place before the
io.py:290 check). -/
theorem c3_counterexample :
    (Grains.parse Grains.init (fun _ => some fileBadCount) "Grains.csv").2
        = .error (.integrityError (some 2) 1) ∧
    (Grains.parse Grains.init (fun _ => some fileBadCount) "Grains.csv").1.grains.length
        = 1 ∧
    (Grains.parse Grains.init (fun _ => some fileBadCount) "Grains.csv").1.numGrains_
        = some 2 ∧
    Grains.init.grains.length = 0 ∧ Grains.init.numGrains_ = none :=
  ⟨rfl, rfl, rfl, rfl, rfl⟩

set_option maxHeartbeats 1600000 in
/-- **C3** (amended). A failed `parse` raises rather than returning a
value, but the caller's instance *can* carry partially-populated state:
whenever the parse fails the integrity check, the instance holds the
declared count, the nominal lattice and every parsed grain row from the
failed attempt. -/
theorem c3_failed_parse_retains_partial_state (s : Grains)
    (fs : String → Option String) (f : String) (st : Grains)
    (exp : Option Int) (act : Nat)
    (h : Grains.parse s fs f = (st, .error (.integrityError exp act))) :
    st.numGrains_ = exp ∧ st.grains.length = act ∧
    st.numGrains_.isSome ∧ st.latticeParameters_.isSome := by
  unfold Grains.parse at h
  repeat split at h <;> try simp at h
  obtain ⟨h1, h2, h3⟩ := h
  subst h1 h2 h3
  exact ⟨rfl, rfl, rfl, rfl⟩

set_option maxRecDepth 100000 in
/-- Witness for C3 at `fileBadCount`: after the failed parse the instance
holds the declared count, one grain row and the nominal lattice. -/
theorem c3_witness :
    (Grains.parse Grains.init (fun _ => some fileBadCount) "Grains.csv").1.numGrains_
        = some 2 ∧
    (Grains.parse Grains.init (fun _ => some fileBadCount) "Grains.csv").1.grains.length
        = 1 ∧
    (Grains.parse Grains.init
        (fun _ => some fileBadCount) "Grains.csv").1.latticeParameters_.isSome = true := by
  have h := c3_failed_parse_retains_partial_state Grains.init
    (fun _ => some fileBadCount) "Grains.csv"
    (Grains.parse Grains.init (fun _ => some fileBadCount) "Grains.csv").1
    (some 2) 1 (by rfl)
  exact ⟨h.1, h.2.1, h.2.2.2⟩

/-- **C7**. `parse` strips every literal `%` from the whole file content
before any header or table parsing, so parsing a file equals parsing the
same file with all `%` characters removed — including `%` in the middle of
a numeric token — the stripped content and the doubly-stripped content
coincide. -/
theorem c7_percent_strip_invariance (self : Grains) (f : String) (c : String) :
    Grains.parse self (fun _ => some c) f
      = Grains.parse self (fun _ => some (stripPct c)) f := by
  unfold Grains.parse
  simp [stripPct, List.filter_filter]

/-- **C6**. `from_Series` reshapes the nine `O`/`eFab`/`eKen` columns into
3×3 matrices in row-major (numpy C) order: for every row on which it
succeeds, entry (i, j) of the orientation matrix is the value of column
`O(i+1)(j+1)`, and likewise for the two strain tensors. -/
theorem c6_reshape_row_major (s : Row) (g : Grain_)
    (h : Grain_.from_Series s = some g) (i j : Fin 3) :
    s (oCol i j) = some (g.orientation i j) ∧
    s (eFabCol i j) = some (g.strainFab i j) ∧
    s (eKenCol i j) = some (g.strainKen i j) := by
  unfold Grain_.from_Series at h
  split at h
  · rename_i hid ho hloc ha hb hc hal hbe hga hdp hdom hdan hrad hconf hef hek hrms hpn
    simp only [Option.some.injEq] at h
    subst h
    fin_cases i <;> fin_cases j
    · exact ⟨getCols_some ho 0 (by decide), getCols_some hef 0 (by decide),
             getCols_some hek 0 (by decide)⟩
    · exact ⟨getCols_some ho 1 (by decide), getCols_some hef 1 (by decide),
             getCols_some hek 1 (by decide)⟩
    · exact ⟨getCols_some ho 2 (by decide), getCols_some hef 2 (by decide),
             getCols_some hek 2 (by decide)⟩
    · exact ⟨getCols_some ho 3 (by decide), getCols_some hef 3 (by decide),
             getCols_some hek 3 (by decide)⟩
    · exact ⟨getCols_some ho 4 (by decide), getCols_some hef 4 (by decide),
             getCols_some hek 4 (by decide)⟩
    · exact ⟨getCols_some ho 5 (by decide), getCols_some hef 5 (by decide),
             getCols_some hek 5 (by decide)⟩
    · exact ⟨getCols_some ho 6 (by decide), getCols_some hef 6 (by decide),
             getCols_some hek 6 (by decide)⟩
    · exact ⟨getCols_some ho 7 (by decide), getCols_some hef 7 (by decide),
             getCols_some hek 7 (by decide)⟩
    · exact ⟨getCols_some ho 8 (by decide), getCols_some hef 8 (by decide),
             getCols_some hek 8 (by decide)⟩
  · exact absurd h (by simp)

set_option maxRecDepth 100000 in
/-- Witness for C6 at the spec's pinned row (`O11=1, …, O33=9`): the
orientation matrix's [0][1] entry equals 2 — the `O12` value — proving the
row-major reshape, and the strain tensors reshape the same way. -/
theorem c6_witness :
    rowC6 (oCol 0 1) = some (gC6.orientation 0 1) ∧
    gC6.orientation 0 1 = 2 ∧
    gC6.strainFab 0 1 = 22 ∧ gC6.strainKen 0 1 = 32 := by
  have h := c6_reshape_row_major rowC6 gC6 (by rfl) 0 1
  exact ⟨h.1, rfl, rfl, rfl⟩

end Hedm
